import Mathlib

/-!
Verification development for the radar/vision lead-fusion core of the
carrotpilot repository, a shallow embedding of
`src/selfdrive/controls/radard.py`.

Python floats are modelled exactly as rationals (`ℚ`); the module's
per-object state (`Track`), the two association strategies, the lead and
side-lead selection functions and the per-cycle track refresh are embedded
as pure functions, with the process-wide `global_vision_aLeadTau` scalar
threaded explicitly as a state argument and returned alongside each result.
-/

/-- Default lead acceleration decay, `_LEAD_ACCEL_TAU` (radard.py line 21). -/
def LEAD_ACCEL_TAU : ℚ := 1.5

/-- No stationary-object flag below this ego speed (radard.py line 27). -/
def V_EGO_STATIONARY : ℚ := 4

/-- Radar is about 1.52 m ahead of the mesh frame (radard.py line 30). -/
def RADAR_TO_CAMERA : ℚ := 1.52

/-- Modelled from the spec: the planned-path sample count checked by the
selection functions (`TRAJECTORY_SIZE` imported from
`selfdrive.controls.lib.lateral_planner`, which is not under src/). -/
def TRAJECTORY_SIZE : ℕ := 33

/-- Modelled from the spec: scan step of clamped piecewise-linear
interpolation (`openpilot.common.numpy_fast.interp`, not under src/).
Arguments: the query `x`, the last table knot already passed `(xl, fl)`,
and the remaining knots. -/
def interpGo (x : ℚ) : ℚ → ℚ → List (ℚ × ℚ) → ℚ
  | _, fl, [] => fl
  | xl, fl, (xi, fi) :: rest =>
      if x > xi then interpGo x xi fi rest
      else fl + (x - xl) * (fi - fl) / (xi - xl)

/-- Modelled from the spec: linear interpolation of `x` over the table
`(xp, fp)`, clamped to the first/last table value outside the range
(`openpilot.common.numpy_fast.interp`, not under src/). -/
def interp (x : ℚ) (xp fp : List ℚ) : ℚ :=
  match xp.zip fp with
  | [] => 0
  | (x₀, f₀) :: rest => if x ≤ x₀ then f₀ else interpGo x x₀ f₀ rest

/-- State vector of one 2-state steady-state Kalman filter.
Modelled from the spec: `openpilot.common.simple_kalman.KF1D` (not under
src/) keeps a 2-vector state and applies a fixed-gain correction step. -/
structure KFState where
  x0 : ℚ
  x1 : ℚ
deriving DecidableEq

/-- Constant-velocity Kalman matrices for one sample interval
(`KalmanParams`, radard.py lines 33-52): `A = [[1, dt], [0, 1]]`,
`C = [1, 0]`, and the interpolated steady-state gain `K = [[k0], [k1]]`. -/
structure KalmanParams where
  dt : ℚ
  k0 : ℚ
  k1 : ℚ
deriving DecidableEq

/-- Gain-table abscissae `dts = [0.01, 0.02, ..., 0.2]` (radard.py line 43). -/
def kalman_dts : List ℚ := (List.range 20).map (fun i => ((i : ℚ) + 1) * 0.01)

/-- First gain component lookup table `K0` (radard.py lines 44-47). -/
def kalman_K0 : List ℚ :=
  [0.12287673, 0.14556536, 0.16522756, 0.18281627, 0.1988689, 0.21372394,
   0.22761098, 0.24069424, 0.253096, 0.26491023, 0.27621103, 0.28705801,
   0.29750003, 0.30757767, 0.31732515, 0.32677158, 0.33594201, 0.34485814,
   0.35353899, 0.36200124]

/-- Second gain component lookup table `K1` (radard.py lines 48-51). -/
def kalman_K1 : List ℚ :=
  [0.29666309, 0.29330885, 0.29042818, 0.28787125, 0.28555364, 0.28342219,
   0.28144091, 0.27958406, 0.27783249, 0.27617149, 0.27458948, 0.27307714,
   0.27162685, 0.27023228, 0.26888809, 0.26758976, 0.26633338, 0.26511557,
   0.26393339, 0.26278425]

/-- `KalmanParams.__init__` (radard.py lines 34-52).  The source asserts
`0.01 < dt < 0.2`; the assertion failure is modelled as `none`. -/
def KalmanParams.ofDt (dt : ℚ) : Option KalmanParams :=
  if 0.01 < dt ∧ dt < 0.2 then
    some ⟨dt, interp dt kalman_dts kalman_K0, interp dt kalman_dts kalman_K1⟩
  else none

/-- Modelled from the spec: one fixed-gain Kalman correction step,
`x := (A - K·C)·x + K·z` with the matrices of `KalmanParams`
(`openpilot.common.simple_kalman.KF1D.update`, not under src/). -/
def kfUpdate (kp : KalmanParams) (s : KFState) (z : ℚ) : KFState :=
  ⟨(1 - kp.k0) * s.x0 + kp.dt * s.x1 + kp.k0 * z,
   -kp.k1 * s.x0 + s.x1 + kp.k1 * z⟩

/-- One live radar track (`Track`, radard.py lines 55-178).  Python leaves
`yRel`, `aRel`, `vLead`, `measured`, `vLeadK`, `aLeadK` unset until the
first `update` call (which always follows creation, radard.py lines
505-508); they are modelled as zero-initialised. -/
structure Track where
  identifier : ℤ
  cnt : ℕ
  aLeadTau : ℚ
  kp : KalmanParams
  kf : KFState
  kf_y : KFState
  dRel : ℚ
  vRel : ℚ
  vLat : ℚ
  vision_prob : ℚ
  radar_ts : ℚ
  yRel : ℚ
  aRel : ℚ
  vLead : ℚ
  measured : Bool
  vLeadK : ℚ
  aLeadK : ℚ
deriving DecidableEq

/-- `Track.__init__` (radard.py lines 56-69). -/
def Track.init (identifier : ℤ) (v_lead y_rel : ℚ) (kp : KalmanParams)
    (radar_ts : ℚ) : Track :=
  { identifier := identifier
    cnt := 0
    aLeadTau := LEAD_ACCEL_TAU
    kp := kp
    kf := ⟨v_lead, 0⟩
    kf_y := ⟨y_rel, 0⟩
    dRel := 0
    vRel := 0
    vLat := 0
    vision_prob := 0
    radar_ts := radar_ts
    yRel := 0
    aRel := 0
    vLead := 0
    measured := false
    vLeadK := 0
    aLeadK := 0 }

/-- `Track.update` (radard.py lines 71-112): discontinuity reseed, raw
copy, conditional Kalman correction, derived fields, tau adaptation,
counter increment. -/
def Track.update (t : Track) (d_rel y_rel v_rel v_lead : ℚ) (measured : Bool)
    (a_rel aLeadTau aLeadTauStart _a_ego : ℚ) : Track :=
  let t1 :=
    if |t.dRel - d_rel| > 3.0 ∨ |t.vRel - v_rel| > 20.0 * t.radar_ts then
      { t with cnt := 0, kf := ⟨v_lead, 0⟩, kf_y := ⟨y_rel, 0⟩ }
    else t
  let t2 := { t1 with dRel := d_rel, yRel := y_rel, vRel := v_rel,
                      aRel := a_rel, vLead := v_lead, measured := measured }
  let t3 :=
    if t2.cnt > 0 then
      { t2 with kf := kfUpdate t2.kp t2.kf t2.vLead,
                kf_y := kfUpdate t2.kp t2.kf_y t2.yRel }
    else t2
  let t4 := { t3 with vLat := t3.kf_y.x1, vLeadK := t3.kf.x0,
                      aLeadK := t3.kf.x1 }
  let t5 :=
    if |t4.aLeadK| < aLeadTauStart then { t4 with aLeadTau := aLeadTau }
    else { t4 with aLeadTau := t4.aLeadTau * 0.9 }
  { t5 with cnt := t5.cnt + 1 }

/-- `Track.get_key_for_cluster` (radard.py lines 114-116). -/
def Track.get_key_for_cluster (t : Track) : List ℚ :=
  [t.dRel, t.yRel * 2, t.vRel]

/-- `Track.potential_low_speed_lead` (radard.py lines 168-171). -/
def Track.potential_low_speed_lead (t : Track) (v_ego : ℚ) : Bool :=
  |t.yRel| < 1.0 ∧ v_ego < V_EGO_STATIONARY ∧ (0.75 < t.dRel ∧ t.dRel < 25)

/-- `Track.is_potential_fcw` (radard.py lines 173-174). -/
def Track.is_potential_fcw (_t : Track) (model_prob : ℚ) : Bool :=
  model_prob > 0.9

/-- One vision lead candidate (`leadsV3` entry); the source reads only the
first element of each per-axis array, modelled as the scalar fields
`x0, y0, v0, a0, xStd0, yStd0, vStd0`. -/
structure LeadMsg where
  x0 : ℚ
  y0 : ℚ
  v0 : ℚ
  a0 : ℚ
  prob : ℚ
  xStd0 : ℚ
  yStd0 : ℚ
  vStd0 : ℚ
deriving DecidableEq, Inhabited

/-- A published Lead Record (the dicts produced by `get_RadarState`,
`get_RadarState2` and `get_RadarState_from_vision`). -/
structure LeadDict where
  status : Bool
  dRel : ℚ
  yRel : ℚ
  vRel : ℚ
  vLead : ℚ
  vLeadK : ℚ
  aLeadK : ℚ
  aLeadTau : ℚ
  fcw : Bool
  modelProb : ℚ
  radar : Bool
  radarTrackId : ℤ
  aRel : ℚ
  vLat : ℚ
deriving DecidableEq, Inhabited

/-- The partial Python dict `{'status': False}` (radard.py lines 275, 302,
303, 436); its other fields are never read and are modelled as zeros. -/
def LeadDict.empty : LeadDict :=
  { status := false, dRel := 0, yRel := 0, vRel := 0, vLead := 0, vLeadK := 0,
    aLeadK := 0, aLeadTau := 0, fcw := false, modelProb := 0, radar := false,
    radarTrackId := 0, aRel := 0, vLat := 0 }

/-- `Track.get_RadarState` (radard.py lines 123-139). -/
def Track.get_RadarState (t : Track) (model_prob : ℚ) : LeadDict :=
  { status := true
    dRel := t.dRel
    yRel := t.yRel
    vRel := t.vRel
    vLead := t.vLead
    vLeadK := t.vLeadK
    aLeadK := t.aLeadK
    aLeadTau := t.aLeadTau
    fcw := t.is_potential_fcw model_prob
    modelProb := model_prob
    radar := true
    radarTrackId := t.identifier
    aRel := t.aRel
    vLat := t.vLat }

/-- `Track.get_RadarState2` (radard.py lines 141-158): identical to
`get_RadarState` except that a zero `yRel` is replaced by the vision
lead's `-lead_msg.y[0]`. -/
def Track.get_RadarState2 (t : Track) (model_prob : ℚ) (lead_msg : LeadMsg) :
    LeadDict :=
  { status := true
    dRel := t.dRel
    yRel := if t.yRel ≠ 0 then t.yRel else -lead_msg.y0
    vRel := t.vRel
    vLead := t.vLead
    vLeadK := t.vLeadK
    aLeadK := t.aLeadK
    aLeadTau := t.aLeadTau
    fcw := t.is_potential_fcw model_prob
    modelProb := model_prob
    radar := true
    radarTrackId := t.identifier
    aRel := t.aRel
    vLat := t.vLat }

/-- Association list lookup; the live Track set `Dict[int, Track]` is
modelled as an association list in insertion order. -/
def lookupAL {K : Type} [DecidableEq K] {α : Type} (k : K) :
    List (K × α) → Option α
  | [] => none
  | p :: rest => if p.1 = k then some p.2 else lookupAL k rest

/-- Python dict assignment: replace the value at an existing key in place,
otherwise append the binding at the end. -/
def upsertAL {K : Type} [DecidableEq K] {α : Type} (k : K) (v : α) :
    List (K × α) → List (K × α)
  | [] => [(k, v)]
  | p :: rest => if p.1 = k then (k, v) :: rest else p :: upsertAL k v rest

/-- Python `max(l, key)`: the first element attaining the maximal key
(later elements replace the running best only when strictly greater). -/
def maxByKey {α : Type} (key : α → ℚ) : List α → Option α
  | [] => none
  | x :: xs => some (xs.foldl (fun best y => if key best < key y then y else best) x)

/-- Python `min(l, key)`: the first element attaining the minimal key
(later elements replace the running best only when strictly smaller). -/
def minByKey {α : Type} (key : α → ℚ) : List α → Option α
  | [] => none
  | x :: xs => some (xs.foldl (fun best y => if key y < key best then y else best) x)

/-- The joint Laplace-likelihood score of `match_vision_to_track`
(radard.py lines 190-204) is built from `math.exp` via `laplacian_pdf`;
exact real exponentiation has no computable embedding, so the score is
abstracted as a function parameter `score : Track → ℚ` of the strategy.
No claim below depends on the score's values: every theorem is proved for
an arbitrary `score`, hence in particular for the source's.  (The source
also stores the score into `c.vision_prob`; that field is only read by the
dead helper `get_leads`, whose body misspells `get_RadarState`.) -/
def match_vision_to_track (score : Track → ℚ) (v_ego : ℚ) (lead : LeadMsg)
    (tracks : List (ℤ × Track)) : Option Track :=
  let offset_vision_dist := lead.x0 - RADAR_TO_CAMERA
  match maxByKey (fun p => score p.2) tracks with
  | none => none
  | some (_, track) =>
    -- sanity gate (radard.py lines 217-225)
    let dist_sane := |track.dRel - offset_vision_dist| <
      max (offset_vision_dist * 0.35) 5.0
    let vel_tolerance : ℚ := if lead.prob > 0.85 then 20.0 else 10
    let vel_sane := |track.vRel + v_ego - lead.v0| < vel_tolerance ∨
      v_ego + track.vRel > 3
    let y_sane := |-lead.y0 - track.yRel| < 3.2 / 2
    if dist_sane ∧ vel_sane ∧ y_sane then some track else none

/-- `get_RadarState_from_vision` (radard.py lines 229-248).  The global
`global_vision_aLeadTau` is threaded explicitly: the function is passed
the current value and returns the record together with the new value.
The source decays the global first (lines 231-232) and then publishes the
decayed value as the record's `aLeadTau` (line 242).  The source dict has
no `aRel`/`vLat` keys; they are modelled as zero. -/
def get_RadarState_from_vision (lead_msg : LeadMsg) (v_ego model_v_ego tau : ℚ) :
    LeadDict × ℚ :=
  let tau' := if tau > 0.3 then tau * 0.9 else tau
  let lead_v_rel_pred := lead_msg.v0 - model_v_ego
  ({ status := true
     dRel := lead_msg.x0 - RADAR_TO_CAMERA
     yRel := -lead_msg.y0
     vRel := lead_v_rel_pred
     vLead := v_ego + lead_v_rel_pred
     vLeadK := v_ego + lead_v_rel_pred
     aLeadK := lead_msg.a0
     aLeadTau := tau'
     fcw := false
     modelProb := lead_msg.prob
     radar := false
     radarTrackId := -1
     aRel := 0
     vLat := 0 }, tau')

/-- `get_lead` before its low-speed-override block (radard.py lines
253-280): probabilistic association, the id-0 (SCC) fallback, the Lead
Record projection or vision-only synthesis, and the decay-state write.
Returns the record together with the new decay-state value. -/
def get_lead_core (score : Track → ℚ) (v_ego : ℚ) (ready : Bool)
    (tracks : List (ℤ × Track)) (lead_msg : LeadMsg)
    (model_v_ego tau : ℚ) : LeadDict × ℚ :=
  let track_scc := lookupAL 0 tracks
  let track : Option Track :=
    if tracks ≠ [] ∧ ready ∧ lead_msg.prob > 0.5 then
      match_vision_to_track score v_ego lead_msg tracks
    else none
  -- SCC fallback (radard.py lines 268-273)
  let track : Option Track :=
    match track_scc, track with
    | some scc, none =>
        if lead_msg.prob > 0.5 ∧ lead_msg.x0 - RADAR_TO_CAMERA < scc.dRel - 5.0
        then none else some scc
    | _, t => t
  match track with
  | some t => (t.get_RadarState2 lead_msg.prob lead_msg, LEAD_ACCEL_TAU)
  | none =>
      if ready ∧ lead_msg.prob > 0.5 then
        get_RadarState_from_vision lead_msg v_ego model_v_ego tau
      else (LeadDict.empty, tau)

/-- The low-speed-override block of `get_lead` (radard.py lines 282-289),
applied to the record produced by `get_lead_core`. -/
def apply_low_speed_override (v_ego : ℚ) (tracks : List (ℤ × Track))
    (lead_msg : LeadMsg) (p : LeadDict × ℚ) : LeadDict × ℚ :=
  let low_speed_tracks :=
    (tracks.map Prod.snd).filter (fun c => c.potential_low_speed_lead v_ego)
  match minByKey Track.dRel low_speed_tracks with
  | none => p
  | some closest_track =>
      if ¬ p.1.status ∨ closest_track.dRel < p.1.dRel then
        (closest_track.get_RadarState2 lead_msg.prob lead_msg, p.2)
      else p

/-- `get_lead` (radard.py lines 251-291).  The `low_speed_override`
parameter defaults to `True` in the source, but `RadarD.update` passes
`low_speed_override=False` on both of its calls (lines 527-528). -/
def get_lead (score : Track → ℚ) (v_ego : ℚ) (ready : Bool)
    (tracks : List (ℤ × Track)) (lead_msg : LeadMsg) (model_v_ego tau : ℚ)
    (low_speed_override : Bool) : LeadDict × ℚ :=
  if low_speed_override then
    apply_low_speed_override v_ego tracks lead_msg
      (get_lead_core score v_ego ready tracks lead_msg model_v_ego tau)
  else get_lead_core score v_ego ready tracks lead_msg model_v_ego tau

/-- The planned-path and vision inputs of `modelV2` read by the selection
functions: `position.x`, `position.y` and `leadsV3`. -/
structure ModelData where
  positionX : List ℚ
  positionY : List ℚ
  leadsV3 : List LeadMsg
deriving DecidableEq, Inhabited

/-- The side-lead bucket decision of `get_lead_side` (radard.py lines
321-334): `next_lane_y = lane_width/2 + lane_width*0.8`, center when
`|d_y| < lane_width/2`, left when `-next_lane_y < d_y < 0`, right when
`0 < d_y < next_lane_y`, otherwise no bucket. -/
inductive SideBucket : Type
  | center
  | left
  | right
  | outside
deriving DecidableEq

/-- See `SideBucket`; this is the if/elif chain of radard.py lines 326-334
applied to one track's path-relative lateral deviation `d_y`. -/
def side_bucket (lane_width d_y : ℚ) : SideBucket :=
  if |d_y| < lane_width / 2 then SideBucket.center
  else if -(lane_width / 2 + lane_width * 0.8) < d_y ∧ d_y < 0 then
    SideBucket.left
  else if 0 < d_y ∧ d_y < lane_width / 2 + lane_width * 0.8 then
    SideBucket.right
  else SideBucket.outside

/-- The `[ll, lc, lr, leadLeft, leadRight]` result of `get_lead_side`. -/
structure SideLeads where
  leadsLeft : List LeadDict
  leadsCenter : List LeadDict
  leadsRight : List LeadDict
  leadLeft : LeadDict
  leadRight : LeadDict
deriving DecidableEq, Inhabited

/-- One step of the bucketing loop of `get_lead_side` (radard.py lines
322-334); the three accumulators are the `dRel`-keyed dicts
`leads_center`, `leads_left`, `leads_right`. -/
def side_bucket_step (lane_width : ℚ) (md : ModelData) (lead_msg : LeadMsg)
    (acc : List (ℚ × LeadDict) × List (ℚ × LeadDict) × List (ℚ × LeadDict))
    (c : Track) :
    List (ℚ × LeadDict) × List (ℚ × LeadDict) × List (ℚ × LeadDict) :=
  let d_y := -c.yRel - interp c.dRel md.positionX md.positionY
  match side_bucket lane_width d_y with
  | SideBucket.center =>
      (upsertAL c.dRel (c.get_RadarState2 lead_msg.prob lead_msg) acc.1,
       acc.2.1, acc.2.2)
  | SideBucket.left =>
      (acc.1, upsertAL c.dRel (c.get_RadarState 0) acc.2.1, acc.2.2)
  | SideBucket.right =>
      (acc.1, acc.2.1, upsertAL c.dRel (c.get_RadarState 0) acc.2.2)
  | SideBucket.outside => acc

/-- `get_lead_side` (radard.py lines 300-363).  `lead_msg` is
`md.leadsV3[0]`; the `md is not None` test is always true at the only call
site (line 531) and the path-length guard is modelled as in the source.
Returns the side-lead result together with the new decay-state value. -/
def get_lead_side (v_ego : ℚ) (tracks : List (ℤ × Track)) (md : ModelData)
    (lane_width model_v_ego tau : ℚ) : SideLeads × ℚ :=
  let lead_msg := md.leadsV3.headI
  if md.positionX.length = TRAJECTORY_SIZE then
    let b := (tracks.map Prod.snd).foldl
      (side_bucket_step lane_width md lead_msg) ([], [], [])
    let cv : List (ℚ × LeadDict) × ℚ :=
      if lead_msg.prob > 0.5 then
        let p := get_RadarState_from_vision lead_msg v_ego model_v_ego tau
        (upsertAL p.1.dRel p.1 b.1, p.2)
      else (b.1, tau)
    let ll := b.2.1.map Prod.snd
    let lr := b.2.2.map Prod.snd
    let lc : List LeadDict :=
      match minByKey Prod.fst cv.1 with
      | none => []
      | some p => [p.2]
    let leadLeft :=
      (minByKey LeadDict.dRel
        ((b.2.1.map Prod.snd).filter (fun l => l.dRel > 5.0))).getD
        LeadDict.empty
    let leadRight :=
      (minByKey LeadDict.dRel
        ((b.2.2.map Prod.snd).filter (fun l => l.dRel > 5.0))).getD
        LeadDict.empty
    (⟨ll, lc, lr, leadLeft, leadRight⟩, cv.2)
  else (⟨[], [], [], LeadDict.empty, LeadDict.empty⟩, tau)

/-- The distance-adaptive corridor width of `match_vision_track_apilot`
(radard.py line 387): `interp(dRel, [0, 10, 100], [1.5, lane_width,
lane_width*0.6])`.  The center test compares `|d_y|` against HALF this
value (line 388). -/
def apilot_lw (lane_width dRel : ℚ) : ℚ :=
  interp dRel [0, 10, 100] [1.5, lane_width, lane_width * 0.6]

/-- The corridor bucket decision of `match_vision_track_apilot`
(radard.py lines 384-393). -/
inductive ABucket : Type
  | center
  | left
  | right
deriving DecidableEq

/-- See `ABucket`: center when `|d_y| < apilot_lw/2`, otherwise left or
right by the sign of `d_y` (radard.py lines 388-393). -/
def apilot_bucket (lane_width dRel d_y : ℚ) : ABucket :=
  if |d_y| < apilot_lw lane_width dRel / 2 then ABucket.center
  else if d_y < 0 then ABucket.left
  else ABucket.right

/-- The path-relative lateral deviation used by the corridor strategy
(radard.py lines 385-386): the path is sampled at `dRel + vLat`. -/
def apilot_d_y (md : ModelData) (c : Track) : ℚ :=
  -c.yRel - interp (c.dRel + c.vLat) md.positionX md.positionY

/-- The SCC-fallback resolution inside the corridor strategy's vision
branch (radard.py lines 416-419): the fallback is DISCARDED when the
vision distance exceeds `dRel - 5` (note: the opposite inequality of
`get_lead`'s fallback, line 272). -/
def apilot_scc_fallback (track_scc : Option Track)
    (offset_vision_dist : ℚ) : Option Track :=
  match track_scc with
  | none => none
  | some scc =>
      if offset_vision_dist > scc.dRel - 5.0 then none else some scc

/-- `match_vision_track_apilot` (radard.py lines 365-427).  The source
also builds `tracks_left`/`tracks_right` dicts; they are never read, so
only the center corridor is materialised here. -/
def match_vision_track_apilot (v_ego : ℚ) (lead_msg : LeadMsg)
    (tracks : List (ℤ × Track)) (md : ModelData) (lane_width : ℚ) :
    Option Track :=
  let offset_vision_dist := lead_msg.x0 - RADAR_TO_CAMERA
  let track_scc := lookupAL 0 tracks
  if tracks ≠ [] then
    if md.positionX.length = TRAJECTORY_SIZE then
      let tracks_center := tracks.filter
        (fun p => apilot_bucket lane_width p.2.dRel (apilot_d_y md p.2) =
          ABucket.center)
      if lead_msg.prob > 0.5 then
        -- 1. distance AND velocity gate, nearest first (lines 402-407)
        let tracks_match := tracks_center.filter (fun p =>
          |p.2.dRel - offset_vision_dist| < max (offset_vision_dist * 0.35) 5.0 ∧
          |p.2.vRel + v_ego - lead_msg.v0| < 10)
        match minByKey (fun p => p.2.dRel) tracks_match with
        | some p => some p.2
        | none =>
          -- 2. distance gate with closing velocity > -0.5, fastest (410-415)
          let tracks_match2 := tracks_center.filter (fun p =>
            |p.2.dRel - offset_vision_dist| < max (offset_vision_dist * 0.35) 5.0 ∧
            p.2.vRel + v_ego > -0.5)
          match maxByKey (fun p => p.2.vRel) tracks_match2 with
          | some p => some p.2
          | none => apilot_scc_fallback track_scc offset_vision_dist
      else
        -- no vision: nearest center track with combined speed > 3 (421-424)
        let tracks_fast := tracks_center.filter (fun p =>
          p.2.vRel + v_ego > 3.0)
        match minByKey (fun p => p.2.dRel) tracks_fast with
        | some p => some p.2
        | none => track_scc
    else track_scc
  else track_scc

/-- `get_lead_apilot` (radard.py lines 429-443): the corridor-strategy
lead selection.  It contains no low-speed-override block. -/
def get_lead_apilot (v_ego : ℚ) (ready : Bool) (tracks : List (ℤ × Track))
    (lead_msg : LeadMsg) (model_v_ego : ℚ) (md : ModelData)
    (lane_width tau : ℚ) : LeadDict × ℚ :=
  let track : Option Track :=
    if tracks ≠ [] ∧ ready then
      match_vision_track_apilot v_ego lead_msg tracks md lane_width
    else none
  match track with
  | some t => (t.get_RadarState2 lead_msg.prob lead_msg, LEAD_ACCEL_TAU)
  | none =>
      if lead_msg.prob > 0.5 then
        get_RadarState_from_vision lead_msg v_ego model_v_ego tau
      else (LeadDict.empty, tau)

/-- One radar point of the radar-interface input `rr.points`. -/
structure RadarPoint where
  trackId : ℤ
  dRel : ℚ
  yRel : ℚ
  vRel : ℚ
  measured : Bool
  aRel : ℚ
deriving DecidableEq

/-- The radar-interface input `rr : car.RadarData`; `errors` only feeds the
validity flag (radard.py line 511). -/
structure RadarData where
  points : List RadarPoint
  errors : List ℤ
deriving DecidableEq

/-- The point list of an optional radar input: a missing `rr` contributes
no points (radard.py lines 476-480). -/
def radarPointsOf : Option RadarData → List RadarPoint
  | none => []
  | some rr => rr.points

/-- The `ar_pts` id-to-measurement dict (radard.py lines 489-491). -/
def build_ar_pts (points : List RadarPoint) : List (ℤ × RadarPoint) :=
  points.foldl (fun m pt => upsertAL pt.trackId pt m) []

/-- The track-refresh portion of `RadarD.update` (radard.py lines
476-508): build `ar_pts`, drop every Track whose id is absent, then create
or update a Track for every id present.  `v_ego_hist0` is the delayed ego
speed `self.v_ego_hist[0]` used to form `v_lead`. -/
def refresh_tracks (kp : KalmanParams) (radar_ts aLeadTau aLeadTauStart
    a_ego v_ego_hist0 : ℚ) (tracks : List (ℤ × Track))
    (rr : Option RadarData) : List (ℤ × Track) :=
  let ar_pts := build_ar_pts (radarPointsOf rr)
  let kept := tracks.filter (fun p => (lookupAL p.1 ar_pts).isSome)
  ar_pts.foldl (fun acc idpt =>
    let v_lead := idpt.2.vRel + v_ego_hist0
    let t0 := match lookupAL idpt.1 acc with
      | some t => t
      | none => Track.init idpt.1 v_lead idpt.2.yRel kp radar_ts
    upsertAL idpt.1
      (t0.update idpt.2.dRel idpt.2.yRel idpt.2.vRel v_lead idpt.2.measured
        idpt.2.aRel aLeadTau aLeadTauStart a_ego) acc) kept

/-- The lead-selection sequence of one `RadarD.update` cycle on the
default (`mixRadarInfo ≠ 2`) path, radard.py lines 521-534: `get_lead`
for `leadsV3[0]` and `leadsV3[1]` (both with `low_speed_override=False`)
followed by one `get_lead_side`, with the shared decay state threaded
through the three calls.  Guarded by `len(leads_v3) > 1` as in line 522. -/
def cycle_leads (score : Track → ℚ) (v_ego : ℚ) (ready : Bool)
    (tracks : List (ℤ × Track)) (md : ModelData)
    (lane_width model_v_ego tau : ℚ) :
    (LeadDict × LeadDict × SideLeads) × ℚ :=
  match md.leadsV3 with
  | l0 :: l1 :: _ =>
    let p1 := get_lead score v_ego ready tracks l0 model_v_ego tau false
    let p2 := get_lead score v_ego ready tracks l1 model_v_ego p1.2 false
    let p3 := get_lead_side v_ego tracks md lane_width model_v_ego p2.2
    ((p1.1, p2.1, p3.1), p3.2)
  | _ => ((LeadDict.empty, LeadDict.empty,
           ⟨[], [], [], LeadDict.empty, LeadDict.empty⟩), tau)

/-- Membership of a key in an association list. -/
def memKey {K : Type} [DecidableEq K] {α : Type} (k : K)
    (l : List (K × α)) : Prop :=
  ∃ v, (k, v) ∈ l

theorem memKey_nil {K : Type} [DecidableEq K] {α : Type} (k : K) :
    ¬ memKey k ([] : List (K × α)) := by
  rintro ⟨v, hv⟩
  simp at hv

theorem memKey_cons {K : Type} [DecidableEq K] {α : Type} (k : K)
    (p : K × α) (l : List (K × α)) :
    memKey k (p :: l) ↔ k = p.1 ∨ memKey k l := by
  constructor
  · rintro ⟨v, hv⟩
    rcases List.mem_cons.mp hv with h | h
    · left
      exact congrArg Prod.fst h.symm ▸ rfl
    · exact Or.inr ⟨v, h⟩
  · rintro (h | ⟨v, hv⟩)
    · exact ⟨p.2, by simp [h]⟩
    · exact ⟨v, List.mem_cons_of_mem _ hv⟩

theorem memKey_upsertAL {K : Type} [DecidableEq K] {α : Type} (k k' : K)
    (v : α) (l : List (K × α)) :
    memKey k (upsertAL k' v l) ↔ k = k' ∨ memKey k l := by
  induction l with
  | nil =>
      simp [upsertAL, memKey, Prod.ext_iff]
  | cons p rest ih =>
      obtain ⟨pk, pv⟩ := p
      by_cases h : pk = k'
      · subst h
        have e : upsertAL pk v ((pk, pv) :: rest) = (pk, v) :: rest := by
          simp [upsertAL]
        rw [e]
        simp only [memKey_cons, Prod.fst]
        tauto
      · have e : upsertAL k' v ((pk, pv) :: rest) =
            (pk, pv) :: upsertAL k' v rest := by
          simp [upsertAL, h]
        rw [e]
        simp only [memKey_cons, Prod.fst, ih]
        tauto

theorem lookupAL_isSome {K : Type} [DecidableEq K] {α : Type} (k : K)
    (l : List (K × α)) : (lookupAL k l).isSome = true ↔ memKey k l := by
  induction l with
  | nil => simp [lookupAL, memKey_nil]
  | cons p rest ih =>
      by_cases h : p.1 = k
      · simp [lookupAL, h, memKey_cons]
      · simp only [lookupAL, if_neg h, ih, memKey_cons]
        constructor
        · exact Or.inr
        · rintro (h2 | h2)
          · exact absurd h2.symm h
          · exact h2

/-- Key set of a fold that upserts one binding per list element. -/
theorem memKey_foldl_upsert {K : Type} [DecidableEq K] {α β : Type}
    (g : β → K) (f : List (K × α) → β → α) (pts : List β) :
    ∀ (acc : List (K × α)) (k : K),
      memKey k (pts.foldl (fun m pt => upsertAL (g pt) (f m pt) m) acc) ↔
        k ∈ pts.map g ∨ memKey k acc := by
  induction pts with
  | nil => simp
  | cons pt rest ih =>
      intro acc k
      simp only [List.foldl_cons, List.map_cons, List.mem_cons, ih,
        memKey_upsertAL]
      tauto

theorem ite_some_eq_some {α : Type} {c : Prop} [Decidable c] {a t : α}
    (h : (if c then some a else none) = some t) : c ∧ a = t := by
  split_ifs at h with hc
  exact ⟨hc, Option.some.inj h⟩

theorem memKey_iff_mem_map_fst {K : Type} [DecidableEq K] {α : Type}
    (k : K) (l : List (K × α)) : memKey k l ↔ k ∈ l.map Prod.fst := by
  constructor
  · rintro ⟨v, hv⟩
    exact List.mem_map.mpr ⟨(k, v), hv, rfl⟩
  · intro h
    rcases List.mem_map.mp h with ⟨p, hp, he⟩
    exact ⟨p.2, by rw [← he]; exact hp⟩

/-- A concrete Track literal used for test inputs; the remaining fields are
fixed innocuous values. -/
def mkTrack (id : ℤ) (dRel yRel vRel vLat : ℚ) : Track :=
  { identifier := id
    cnt := 1
    aLeadTau := LEAD_ACCEL_TAU
    kp := ⟨0.05, 0.2, 0.28⟩
    kf := ⟨0, 0⟩
    kf_y := ⟨0, 0⟩
    dRel := dRel
    vRel := vRel
    vLat := vLat
    vision_prob := 0
    radar_ts := 0.05
    yRel := yRel
    aRel := 0
    vLead := 0
    measured := true
    vLeadK := 0
    aLeadK := 0 }

/-- A concrete vision lead candidate used for test inputs. -/
def mkLead (x0 y0 v0 prob : ℚ) : LeadMsg :=
  { x0 := x0, y0 := y0, v0 := v0, a0 := 0, prob := prob,
    xStd0 := 0, yStd0 := 0, vStd0 := 0 }

/-- A model message with a straight, centred planned path of the required
length. -/
def mdStraight (leads : List LeadMsg) : ModelData :=
  { positionX := List.replicate TRAJECTORY_SIZE 0
    positionY := List.replicate TRAJECTORY_SIZE 0
    leadsV3 := leads }

/-- C3 (confirmed): the probabilistic strategy returns a Track only when
the maximum-score Track passes the hard sanity gate: distance error below
`max(0.35·vision_distance, 5.0)`, velocity error below 20 m/s (vision
confidence above 0.85) or 10 m/s otherwise OR combined closing speed above
3 m/s, and lateral error below half the assumed 3.2 m lane; in particular
a sole Track at `dRel = 30` against vision distance 50 is rejected. -/
theorem claim_C3 :
    (∀ (score : Track → ℚ) (v_ego : ℚ) (lead : LeadMsg)
        (tracks : List (ℤ × Track)) (t : Track),
      match_vision_to_track score v_ego lead tracks = some t →
        (∃ k, maxByKey (fun p : ℤ × Track => score p.2) tracks = some (k, t)) ∧
        |t.dRel - (lead.x0 - RADAR_TO_CAMERA)| <
          max ((lead.x0 - RADAR_TO_CAMERA) * 0.35) 5.0 ∧
        (|t.vRel + v_ego - lead.v0| < (if lead.prob > 0.85 then 20.0 else 10) ∨
          v_ego + t.vRel > 3) ∧
        |-lead.y0 - t.yRel| < 3.2 / 2) ∧
    (∀ score : Track → ℚ,
      match_vision_to_track score 0 (mkLead 51.52 0 0 0.6)
        [(1, mkTrack 1 30 0 0 0)] = none) := by
  constructor
  · intro score v_ego lead tracks t h
    simp only [match_vision_to_track] at h
    cases hmax : maxByKey (fun p : ℤ × Track => score p.2) tracks with
    | none =>
        rw [hmax] at h
        exact Option.noConfusion h
    | some q =>
        obtain ⟨k0, tr⟩ := q
        rw [hmax] at h
        obtain ⟨hc, he⟩ := ite_some_eq_some h
        subst he
        exact ⟨⟨k0, rfl⟩, hc.1, hc.2.1, hc.2.2⟩
  · intro score
    have hmax : maxByKey (fun p : ℤ × Track => score p.2)
        [(1, mkTrack 1 30 0 0 0)] = some (1, mkTrack 1 30 0 0 0) := rfl
    simp only [match_vision_to_track, hmax]
    exact if_neg (by with_unfolding_all decide)

/-- Witness for C3: a sole in-gate Track is returned and satisfies every
gate condition. -/
theorem claim_C3_witness :
    match_vision_to_track (fun _ => 0) 5 (mkLead 31.52 0 5 0.6)
      [(2, mkTrack 2 30 0 0 0)] = some (mkTrack 2 30 0 0 0) ∧
    (|(mkTrack 2 30 0 0 0).dRel -
        ((mkLead 31.52 0 5 0.6).x0 - RADAR_TO_CAMERA)| <
      max (((mkLead 31.52 0 5 0.6).x0 - RADAR_TO_CAMERA) * 0.35) 5.0) := by
  have h : match_vision_to_track (fun _ => 0) 5 (mkLead 31.52 0 5 0.6)
      [(2, mkTrack 2 30 0 0 0)] = some (mkTrack 2 30 0 0 0) := by with_unfolding_all decide
  exact ⟨h, (claim_C3.1 (fun _ => 0) 5 (mkLead 31.52 0 5 0.6)
    [(2, mkTrack 2 30 0 0 0)] (mkTrack 2 30 0 0 0) h).2.1⟩

/-- C5 (confirmed): a discontinuous measurement (distance jump above 3 m
or relative-velocity jump above `20·dt`) reseeds both filters directly
from the raw measurement (speed filter at the new `vLead` with zero
acceleration, lateral filter at the new `yRel` with zero lateral
velocity), resets `cnt` (so the post-update counter is exactly 1 whatever
it was before) and applies no Kalman correction in that update: the
filtered outputs equal the raw seeds. -/
theorem claim_C5 (t : Track) (d_rel y_rel v_rel v_lead : ℚ) (measured : Bool)
    (a_rel aLeadTau aLeadTauStart a_ego : ℚ)
    (h : |t.dRel - d_rel| > 3.0 ∨ |t.vRel - v_rel| > 20.0 * t.radar_ts) :
    (t.update d_rel y_rel v_rel v_lead measured a_rel aLeadTau aLeadTauStart
        a_ego).kf = ⟨v_lead, 0⟩ ∧
    (t.update d_rel y_rel v_rel v_lead measured a_rel aLeadTau aLeadTauStart
        a_ego).kf_y = ⟨y_rel, 0⟩ ∧
    (t.update d_rel y_rel v_rel v_lead measured a_rel aLeadTau aLeadTauStart
        a_ego).cnt = 1 ∧
    (t.update d_rel y_rel v_rel v_lead measured a_rel aLeadTau aLeadTauStart
        a_ego).vLeadK = v_lead ∧
    (t.update d_rel y_rel v_rel v_lead measured a_rel aLeadTau aLeadTauStart
        a_ego).aLeadK = 0 ∧
    (t.update d_rel y_rel v_rel v_lead measured a_rel aLeadTau aLeadTauStart
        a_ego).vLat = 0 := by
  simp only [Track.update, if_pos h]
  norm_num
  split_ifs <;> simp

/-- Witness for C5: a concrete discontinuous update (distance jump of
10 m) yields exactly the reseeded state. -/
theorem claim_C5_witness :
    (|(mkTrack 1 0 0 0 0).dRel - 10| > 3.0 ∨
      |(mkTrack 1 0 0 0 0).vRel - 0| > 20.0 * (mkTrack 1 0 0 0 0).radar_ts) ∧
    ((mkTrack 1 0 0 0 0).update 10 2 0 7 true 0 1.5 0.5 0).kf = ⟨7, 0⟩ ∧
    ((mkTrack 1 0 0 0 0).update 10 2 0 7 true 0 1.5 0.5 0).kf_y = ⟨2, 0⟩ ∧
    ((mkTrack 1 0 0 0 0).update 10 2 0 7 true 0 1.5 0.5 0).cnt = 1 ∧
    ((mkTrack 1 0 0 0 0).update 10 2 0 7 true 0 1.5 0.5 0).vLeadK = 7 ∧
    ((mkTrack 1 0 0 0 0).update 10 2 0 7 true 0 1.5 0.5 0).aLeadK = 0 ∧
    ((mkTrack 1 0 0 0 0).update 10 2 0 7 true 0 1.5 0.5 0).vLat = 0 :=
  ⟨Or.inl (by with_unfolding_all decide),
   claim_C5 (mkTrack 1 0 0 0 0) 10 2 0 7 true 0 1.5 0.5 0
     (Or.inl (by with_unfolding_all decide))⟩

/-- C10 (confirmed): `get_RadarState2` publishes the Track's own `yRel`
exactly when it is nonzero and substitutes the vision lead's `-y[0]` when
it is zero; every other kinematic field is taken from the Track, with
`status = radar = true` and the Track id as `radarTrackId`.  This is the
projection used for the primary/secondary leads (radard.py line 277), the
center side-lead records (line 327) and the low-speed override record
(line 289). -/
theorem claim_C10 (t : Track) (model_prob : ℚ) (lead_msg : LeadMsg) :
    ((t.yRel ≠ 0 → (t.get_RadarState2 model_prob lead_msg).yRel = t.yRel) ∧
     (t.yRel = 0 →
       (t.get_RadarState2 model_prob lead_msg).yRel = -lead_msg.y0)) ∧
    (t.get_RadarState2 model_prob lead_msg).dRel = t.dRel ∧
    (t.get_RadarState2 model_prob lead_msg).vRel = t.vRel ∧
    (t.get_RadarState2 model_prob lead_msg).vLead = t.vLead ∧
    (t.get_RadarState2 model_prob lead_msg).vLeadK = t.vLeadK ∧
    (t.get_RadarState2 model_prob lead_msg).aLeadK = t.aLeadK ∧
    (t.get_RadarState2 model_prob lead_msg).aLeadTau = t.aLeadTau ∧
    (t.get_RadarState2 model_prob lead_msg).aRel = t.aRel ∧
    (t.get_RadarState2 model_prob lead_msg).vLat = t.vLat ∧
    (t.get_RadarState2 model_prob lead_msg).status = true ∧
    (t.get_RadarState2 model_prob lead_msg).radar = true ∧
    (t.get_RadarState2 model_prob lead_msg).radarTrackId = t.identifier := by
  refine ⟨⟨fun h => ?_, fun h => ?_⟩, ?_, ?_, ?_, ?_, ?_, ?_, ?_, ?_, ?_, ?_, ?_⟩ <;>
    simp [Track.get_RadarState2, *]

/-- Witness for C10: a Track with `yRel = 0` publishes the vision lead's
negated lateral position. -/
theorem claim_C10_witness :
    (mkTrack 2 5 0 0 0).yRel = 0 ∧
    ((mkTrack 2 5 0 0 0).get_RadarState2 0 (mkLead 10 (1/2) 0 0)).yRel =
      -(1/2 : ℚ) := by
  refine ⟨by with_unfolding_all decide, ?_⟩
  have h := (claim_C10 (mkTrack 2 5 0 0 0) 0 (mkLead 10 (1/2) 0 0)).1.2
    (by with_unfolding_all decide)
  simpa [mkLead] using h

/-- C4 (confirmed): after a track-refresh cycle the Track map's key set is
exactly the set of `trackId`s in that cycle's radar point list, so an id
absent for one cycle is removed at once; a missing radar input (`rr =
none`, and likewise an empty point list) yields zero detections and an
empty Track map, and the refresh is a total function (never fatal). -/
theorem claim_C4 (kp : KalmanParams)
    (radar_ts aLeadTau aLeadTauStart a_ego v_ego_hist0 : ℚ)
    (tracks : List (ℤ × Track)) (rr : Option RadarData) (id : ℤ) :
    (memKey id (refresh_tracks kp radar_ts aLeadTau aLeadTauStart a_ego
        v_ego_hist0 tracks rr) ↔
      id ∈ (radarPointsOf rr).map RadarPoint.trackId) ∧
    refresh_tracks kp radar_ts aLeadTau aLeadTauStart a_ego v_ego_hist0
      tracks none = [] := by
  constructor
  · have har : ∀ j : ℤ,
        memKey j (build_ar_pts (radarPointsOf rr)) ↔
          j ∈ (radarPointsOf rr).map RadarPoint.trackId := by
      intro j
      unfold build_ar_pts
      rw [memKey_foldl_upsert RadarPoint.trackId (fun _ pt => pt)
        (radarPointsOf rr) [] j]
      simp [memKey_nil]
    unfold refresh_tracks
    rw [memKey_foldl_upsert Prod.fst _ (build_ar_pts (radarPointsOf rr)) _ id]
    constructor
    · rintro (h | h)
      · exact (har id).mp ((memKey_iff_mem_map_fst id _).mpr h)
      · -- a kept Track's id passed the `lookupAL` filter, so it is in ar_pts
        obtain ⟨v, hv⟩ := h
        have hmem := (List.mem_filter.mp hv).2
        exact (har id).mp ((lookupAL_isSome id _).mp hmem)
    · intro h
      exact Or.inl ((memKey_iff_mem_map_fst id _).mp ((har id).mpr h))
  · simp [refresh_tracks, build_ar_pts, radarPointsOf, lookupAL,
      List.filter_eq_nil_iff]

/-- Witness for C4: with one prior Track (id 7) and a radar input holding
one point (id 5), the refreshed map contains id 5 and no longer contains
id 7. -/
theorem claim_C4_witness :
    memKey 5 (refresh_tracks ⟨0.05, 0.2, 0.28⟩ 0.05 1.5 0.5 0 0
      [(7, mkTrack 7 1 0 0 0)] (some ⟨[⟨5, 10, 0, 0, true, 0⟩], []⟩)) ∧
    ¬ memKey 7 (refresh_tracks ⟨0.05, 0.2, 0.28⟩ 0.05 1.5 0.5 0 0
      [(7, mkTrack 7 1 0 0 0)] (some ⟨[⟨5, 10, 0, 0, true, 0⟩], []⟩)) := by
  constructor
  · exact (claim_C4 ⟨0.05, 0.2, 0.28⟩ 0.05 1.5 0.5 0 0
      [(7, mkTrack 7 1 0 0 0)] (some ⟨[⟨5, 10, 0, 0, true, 0⟩], []⟩) 5).1.mpr
      (by with_unfolding_all decide)
  · intro h
    have := (claim_C4 ⟨0.05, 0.2, 0.28⟩ 0.05 1.5 0.5 0 0
      [(7, mkTrack 7 1 0 0 0)] (some ⟨[⟨5, 10, 0, 0, true, 0⟩], []⟩) 7).1.mp h
    simp [radarPointsOf] at this

/-- C6 counterexample: the claim says the record's `aLeadTau` is the
shared decay state as it was when the record is synthesized (decay only
afterwards), but with the decay state at its base value 1.5 the
synthesized vision-only record carries `aLeadTau = 1.35`: the source
decays the state first and publishes the decayed value. -/
theorem claim_C6_counterexample :
    (get_lead (fun _ => 0) 0 true [] (mkLead 30 0 0 0.6) 0 LEAD_ACCEL_TAU
      false).1.status = true ∧
    (get_lead (fun _ => 0) 0 true [] (mkLead 30 0 0 0.6) 0 LEAD_ACCEL_TAU
      false).1.radar = false ∧
    (get_lead (fun _ => 0) 0 true [] (mkLead 30 0 0 0.6) 0 LEAD_ACCEL_TAU
      false).1.aLeadTau = 1.35 ∧
    (1.35 : ℚ) ≠ LEAD_ACCEL_TAU := by
  refine ⟨?_, ?_, ?_, ?_⟩ <;> with_unfolding_all decide

/-- C6 amended (proved): with zero Tracks, the model ready and vision
confidence above 0.5, `get_lead` returns (for either value of the
override flag) the record synthesized purely from vision kinematics with
`status = true` and `radar = false`; the shared decay state is decayed
FIRST (multiplied by 0.9 whenever it exceeds 0.3) and that already-decayed
value is both published as the record's `aLeadTau` and kept as the state
for the next cycle. -/
theorem claim_C6_amended (score : Track → ℚ) (v_ego : ℚ) (lead_msg : LeadMsg)
    (model_v_ego tau : ℚ) (lso : Bool) (h : lead_msg.prob > 0.5) :
    get_lead score v_ego true [] lead_msg model_v_ego tau lso =
      get_RadarState_from_vision lead_msg v_ego model_v_ego tau ∧
    (get_lead score v_ego true [] lead_msg model_v_ego tau lso).1.status =
      true ∧
    (get_lead score v_ego true [] lead_msg model_v_ego tau lso).1.radar =
      false ∧
    (get_lead score v_ego true [] lead_msg model_v_ego tau lso).1.aLeadTau =
      (if tau > 0.3 then tau * 0.9 else tau) ∧
    (get_lead score v_ego true [] lead_msg model_v_ego tau lso).2 =
      (if tau > 0.3 then tau * 0.9 else tau) := by
  have hcore : get_lead_core score v_ego true [] lead_msg model_v_ego tau =
      get_RadarState_from_vision lead_msg v_ego model_v_ego tau := by
    simp [get_lead_core, lookupAL, h]
  have he : get_lead score v_ego true [] lead_msg model_v_ego tau lso =
      get_RadarState_from_vision lead_msg v_ego model_v_ego tau := by
    cases lso <;>
      simp [get_lead, apply_low_speed_override, hcore, minByKey]
  refine ⟨he, ?_, ?_, ?_, ?_⟩ <;> rw [he] <;>
    simp [get_RadarState_from_vision]

/-- Witness for the amended C6: zero Tracks, confidence 0.6, decay state
1: the returned record is vision-only and carries the decayed value 0.9. -/
theorem claim_C6_witness :
    (mkLead 30 0 0 0.6).prob > 0.5 ∧
    (get_lead (fun _ => 0) 0 true [] (mkLead 30 0 0 0.6) 2 1 true).1.radar =
      false ∧
    (get_lead (fun _ => 0) 0 true [] (mkLead 30 0 0 0.6) 2 1 true).1.aLeadTau
      = 0.9 := by
  have h : (mkLead 30 0 0 0.6).prob > 0.5 := by with_unfolding_all decide
  have hm := claim_C6_amended (fun _ => 0) 0 (mkLead 30 0 0 0.6) 2 1 true h
  refine ⟨h, hm.2.2.1, ?_⟩
  rw [hm.2.2.2.1]
  norm_num

/-- C1 counterexample: the claim says the low-speed override is applied on
every lead-selection call, independent of the configured strategy; but
`RadarD.update` calls `get_lead` with `low_speed_override=False`
(radard.py lines 527-528) and the corridor-strategy selection
`get_lead_apilot` has no override block at all, so with a qualifying
low-speed Track (`dRel = 5`, `yRel = 0.2`, ego speed 2) and no vision
candidate both calls return a status-false record instead of the Track's
projection (whose status is true). -/
theorem claim_C1_counterexample :
    (mkTrack 1 5 0.2 0 0).potential_low_speed_lead 2 = true ∧
    (get_lead (fun _ => 0) 2 false [(1, mkTrack 1 5 0.2 0 0)]
      (mkLead 30 0 0 0) 0 LEAD_ACCEL_TAU false).1.status = false ∧
    ((mkTrack 1 5 0.2 0 0).get_RadarState2 (mkLead 30 0 0 0).prob
      (mkLead 30 0 0 0)).status = true ∧
    (get_lead_apilot 2 true [(1, mkTrack 1 5 0.2 0 0)] (mkLead 30 0 0 0) 0
      ⟨[], [], [mkLead 30 0 0 0]⟩ 3.6 LEAD_ACCEL_TAU).1.status = false := by
  refine ⟨?_, ?_, ?_, ?_⟩ <;> with_unfolding_all decide

/-- C1 amended (proved): the low-speed override lives only in `get_lead`
and only runs when its `low_speed_override` flag is set (the source
default; the orchestrator passes `False`).  When the flag is set: among
all Tracks flagged as potential low-speed leads (`|yRel| < 1`, ego speed
below 4, `0.75 < dRel < 25`), if one exists and either no record was
produced by the strategy/fallback/vision stage (the flag-off result) or
the closest such Track is nearer than that record, then the returned
record is exactly that closest Track's `get_RadarState2` projection,
regardless of vision confidence. -/
theorem claim_C1_amended (score : Track → ℚ) (v_ego : ℚ) (ready : Bool)
    (tracks : List (ℤ × Track)) (lead_msg : LeadMsg) (model_v_ego tau : ℚ)
    (closest : Track)
    (hmin : minByKey Track.dRel ((tracks.map Prod.snd).filter
      (fun c => c.potential_low_speed_lead v_ego)) = some closest)
    (hrepl : ¬ (get_lead score v_ego ready tracks lead_msg model_v_ego tau
        false).1.status ∨
      closest.dRel < (get_lead score v_ego ready tracks lead_msg model_v_ego
        tau false).1.dRel) :
    (get_lead score v_ego ready tracks lead_msg model_v_ego tau true).1 =
      closest.get_RadarState2 lead_msg.prob lead_msg := by
  have hfalse : get_lead score v_ego ready tracks lead_msg model_v_ego tau
      false = get_lead_core score v_ego ready tracks lead_msg model_v_ego
      tau := by
    simp [get_lead]
  rw [hfalse] at hrepl
  simp only [get_lead, if_true, apply_low_speed_override, hmin]
  rw [if_pos hrepl]

/-- Witness for the amended C1: with the override flag set, a sole
qualifying low-speed Track replaces the empty record. -/
theorem claim_C1_witness :
    minByKey Track.dRel ((([((1 : ℤ), mkTrack 1 5 0.2 0 0)]).map
      Prod.snd).filter (fun c => c.potential_low_speed_lead 2)) =
      some (mkTrack 1 5 0.2 0 0) ∧
    (get_lead (fun _ => 0) 2 false [(1, mkTrack 1 5 0.2 0 0)]
      (mkLead 30 0 0 0) 0 LEAD_ACCEL_TAU true).1 =
      (mkTrack 1 5 0.2 0 0).get_RadarState2 (mkLead 30 0 0 0).prob
        (mkLead 30 0 0 0) := by
  refine ⟨by with_unfolding_all decide, ?_⟩
  exact claim_C1_amended (fun _ => 0) 2 false [(1, mkTrack 1 5 0.2 0 0)]
    (mkLead 30 0 0 0) 0 LEAD_ACCEL_TAU (mkTrack 1 5 0.2 0 0)
    (by with_unfolding_all decide)
    (Or.inl (by with_unfolding_all decide))

/-- C2 counterexample: the claim says the id-0 fallback is discarded
exactly when the vision distance is below the fallback's `dRel - 5` on
BOTH selection paths; on the corridor path the inequality is reversed:
with the SCC track at `dRel = 50` (outside the center corridor) and
vision distance 20 (less than 45), the fallback is KEPT and returned. -/
theorem claim_C2_counterexample :
    (mkLead 21.52 (-3) 0 0.6).x0 - RADAR_TO_CAMERA <
      (mkTrack 0 50 3 0 0).dRel - 5.0 ∧
    match_vision_track_apilot 0 (mkLead 21.52 (-3) 0 0.6)
      [(0, mkTrack 0 50 3 0 0)] (mdStraight [mkLead 21.52 (-3) 0 0.6]) 3.6 =
      some (mkTrack 0 50 3 0 0) := by
  constructor <;> with_unfolding_all decide

/-- C2 amended (proved): the id-0 (SCC) Track is kept as the fallback on
both paths, but the discard condition differs.  On the probabilistic path
(`get_lead`, here with `ready = false` so the strategy chooses nothing)
the fallback is discarded exactly when vision confidence exceeds 0.5 AND
the vision distance is less than the fallback's `dRel - 5`.  On the
corridor path (`match_vision_track_apilot`, with a valid path, vision
confidence above 0.5 and the sole id-0 Track outside the center corridor
so both corridor gates choose nothing) the fallback is discarded exactly
when the vision distance is GREATER than the fallback's `dRel - 5`. -/
theorem claim_C2_amended :
    (∀ (score : Track → ℚ) (v_ego : ℚ) (tracks : List (ℤ × Track))
        (lead_msg : LeadMsg) (model_v_ego tau : ℚ) (scc : Track),
      lookupAL 0 tracks = some scc →
      get_lead score v_ego false tracks lead_msg model_v_ego tau false =
        if lead_msg.prob > 0.5 ∧
            lead_msg.x0 - RADAR_TO_CAMERA < scc.dRel - 5.0 then
          (LeadDict.empty, tau)
        else (scc.get_RadarState2 lead_msg.prob lead_msg, LEAD_ACCEL_TAU)) ∧
    (∀ (v_ego : ℚ) (lead_msg : LeadMsg) (scc : Track) (md : ModelData)
        (lane_width : ℚ),
      md.positionX.length = TRAJECTORY_SIZE →
      lead_msg.prob > 0.5 →
      ¬ |apilot_d_y md scc| < apilot_lw lane_width scc.dRel / 2 →
      match_vision_track_apilot v_ego lead_msg [(0, scc)] md lane_width =
        if lead_msg.x0 - RADAR_TO_CAMERA > scc.dRel - 5.0 then none
        else some scc) := by
  constructor
  · intro score v_ego tracks lead_msg model_v_ego tau scc hscc
    by_cases hd : lead_msg.prob > 0.5 ∧
        lead_msg.x0 - RADAR_TO_CAMERA < scc.dRel - 5.0
    · simp [get_lead, get_lead_core, hscc, hd]
    · simp [get_lead, get_lead_core, hscc, hd]
  · intro v_ego lead_msg scc md lane_width hmd hp hbucket
    have hcenter : apilot_bucket lane_width scc.dRel (apilot_d_y md scc) ≠
        ABucket.center := by
      simp only [apilot_bucket]
      rw [if_neg hbucket]
      split_ifs <;> intro hx <;> exact ABucket.noConfusion hx
    simp [match_vision_track_apilot, hmd, hp, hcenter, apilot_scc_fallback,
      lookupAL, minByKey, maxByKey]

/-- Witness for the amended C2: with no vision candidate the probabilistic
path publishes the SCC fallback; on the corridor path a vision candidate
20 m farther than the fallback's `dRel - 5` leads to the fallback being
discarded. -/
theorem claim_C2_witness :
    get_lead (fun _ => 0) 0 false [(0, mkTrack 0 30 0 0 0)] (mkLead 0 0 0 0)
      0 1 false =
      ((mkTrack 0 30 0 0 0).get_RadarState2 (mkLead 0 0 0 0).prob
        (mkLead 0 0 0 0), LEAD_ACCEL_TAU) ∧
    match_vision_track_apilot 0 (mkLead 51.52 0 0 0.6)
      [(0, mkTrack 0 30 3 0 0)] (mdStraight [mkLead 51.52 0 0 0.6]) 3.6 =
      none := by
  constructor
  · have h := claim_C2_amended.1 (fun _ => 0) 0 [(0, mkTrack 0 30 0 0 0)]
      (mkLead 0 0 0 0) 0 1 (mkTrack 0 30 0 0 0)
      (by with_unfolding_all decide)
    rw [h]
    with_unfolding_all decide
  · have h := claim_C2_amended.2 0 (mkLead 51.52 0 0 0.6)
      (mkTrack 0 30 3 0 0) (mdStraight [mkLead 51.52 0 0 0.6]) 3.6
      (by with_unfolding_all decide) (by with_unfolding_all decide)
      (by with_unfolding_all decide)
    rw [h]
    with_unfolding_all decide

/-- C7 counterexample: the claim places every Track with lateral deviation
strictly between half and 1.8 times the lane width into a side list, but
with lane width 3.6 a deviation of 5.4 (between 1.8 and 6.48) falls into
NO bucket: the source's side corridors end at `lane_width/2 +
lane_width*0.8 = 1.3` lane widths (4.68). -/
theorem claim_C7_counterexample :
    side_bucket 3.6 5.4 = SideBucket.outside ∧
    3.6 / 2 < (5.4 : ℚ) ∧ (5.4 : ℚ) < 1.8 * 3.6 := by
  refine ⟨?_, ?_, ?_⟩ <;> with_unfolding_all decide

/-- C7 amended (proved): a Track goes to the right (resp. left) side list
exactly when its deviation `d_y` satisfies `lane_width/2 ≤ d_y <
lane_width/2 + lane_width*0.8` (resp. the mirrored condition) — the outer
limit is 1.3 lane widths, not 1.8, and the inner boundary is inclusive;
`leadRight` is the nearest right candidate with `dRel > 5` (the Track at
`dRel = 20`, `yRel = -2.5`, lane width 3.6 is reported; the identical
Track at `dRel = 3` is not, leaving a status-false record). -/
theorem claim_C7_amended :
    (∀ lane_width d_y : ℚ, 0 < lane_width →
      (side_bucket lane_width d_y = SideBucket.right ↔
        lane_width / 2 ≤ d_y ∧ d_y < lane_width / 2 + lane_width * 0.8) ∧
      (side_bucket lane_width d_y = SideBucket.left ↔
        -(lane_width / 2 + lane_width * 0.8) < d_y ∧
          d_y ≤ -(lane_width / 2))) ∧
    (get_lead_side 0 [(1, mkTrack 1 20 (-2.5) 0 0)]
        (mdStraight [mkLead 0 0 0 0]) 3.6 0 1).1.leadRight =
      (mkTrack 1 20 (-2.5) 0 0).get_RadarState 0 ∧
    (get_lead_side 0 [(1, mkTrack 1 3 (-2.5) 0 0)]
        (mdStraight [mkLead 0 0 0 0]) 3.6 0 1).1.leadRight.status = false := by
  refine ⟨?_, by with_unfolding_all decide, by with_unfolding_all decide⟩
  intro lane_width d_y hlw
  unfold side_bucket
  rcases le_or_lt 0 d_y with hs | hs
  · rw [abs_of_nonneg hs]
    split_ifs with h1 h2 h3
    · exact ⟨iff_of_false not_false (fun hx => by linarith [hx.1]),
             iff_of_false not_false (fun hx => by linarith [hx.2])⟩
    · exact absurd h2.2 (not_lt.mpr hs)
    · exact ⟨iff_of_true rfl ⟨not_lt.mp h1, h3.2⟩,
             iff_of_false not_false (fun hx => by linarith [hx.2, h3.1])⟩
    · exact ⟨iff_of_false not_false
          (fun hx => h3 ⟨by linarith [hx.1], hx.2⟩),
        iff_of_false not_false (fun hx => by linarith [hx.2])⟩
  · rw [abs_of_neg hs]
    split_ifs with h1 h2 h3
    · exact ⟨iff_of_false not_false (fun hx => by linarith [hx.1]),
             iff_of_false not_false (fun hx => by linarith [hx.2])⟩
    · exact ⟨iff_of_false not_false (fun hx => by linarith [hx.1]),
             iff_of_true rfl ⟨h2.1, by linarith [not_lt.mp h1]⟩⟩
    · exact absurd h3.1 (by linarith)
    · exact ⟨iff_of_false not_false (fun hx => by linarith [hx.1]),
        iff_of_false not_false
          (fun hx => h2 ⟨hx.1, by linarith [hx.2]⟩)⟩

/-- Witness for the amended C7: deviation 2.5 at lane width 3.6 is a right
candidate, deviation -2.5 a left candidate. -/
theorem claim_C7_witness :
    (0 : ℚ) < 3.6 ∧ side_bucket 3.6 2.5 = SideBucket.right ∧
    side_bucket 3.6 (-2.5) = SideBucket.left := by
  refine ⟨by norm_num, ?_, ?_⟩
  · exact ((claim_C7_amended.1 3.6 2.5 (by norm_num)).1).mpr (by norm_num)
  · exact ((claim_C7_amended.1 3.6 (-2.5) (by norm_num)).2).mpr (by norm_num)

/-- Closed form of `interp` on a three-knot table. -/
theorem interp3 (x a b c fa fb fc : ℚ) :
    interp x [a, b, c] [fa, fb, fc] =
      if x ≤ a then fa
      else if x > b then
        (if x > c then fc else fb + (x - b) * (fc - fb) / (c - b))
      else fa + (x - a) * (fb - fa) / (b - a) := rfl

/-- C8 counterexample: the claim takes the interpolated value (1.5 m at
0 m, the full lane width at 10 m, 0.6 lane widths beyond 100 m) itself as
the center half-width; at `dRel = 10`, lane width 3.6, a deviation of 2.5
is below that interpolant (3.6) yet the corridor strategy buckets the
Track right, not center: the source halves the interpolant. -/
theorem claim_C8_counterexample :
    apilot_bucket 3.6 10 2.5 = ABucket.right ∧
    |(2.5 : ℚ)| < apilot_lw 3.6 10 := by
  constructor <;> with_unfolding_all decide

/-- C8 amended (proved): the corridor strategy's center bucket is
`|d_y| < apilot_lw(lane_width, dRel) / 2` — HALF of the distance-adaptive
width interpolated as 1.5 at 0 m, the full lane width at 10 m and 0.6 lane
widths beyond 100 m; Tracks at or beyond that half-width go left or right
by the sign of the deviation. -/
theorem claim_C8_amended :
    (∀ lane_width dRel d_y : ℚ,
      (apilot_bucket lane_width dRel d_y = ABucket.center ↔
        |d_y| < apilot_lw lane_width dRel / 2) ∧
      (¬ |d_y| < apilot_lw lane_width dRel / 2 →
        (apilot_bucket lane_width dRel d_y = ABucket.left ↔ d_y < 0) ∧
        (apilot_bucket lane_width dRel d_y = ABucket.right ↔ 0 ≤ d_y))) ∧
    (∀ lane_width : ℚ, apilot_lw lane_width 0 = 1.5) ∧
    (∀ lane_width : ℚ, apilot_lw lane_width 10 = lane_width) ∧
    (∀ lane_width d : ℚ, 100 ≤ d → apilot_lw lane_width d =
      lane_width * 0.6) := by
  refine ⟨?_, ?_, ?_, ?_⟩
  · intro lane_width dRel d_y
    unfold apilot_bucket
    split_ifs with h1 h2
    · exact ⟨iff_of_true rfl h1, fun hc => absurd h1 hc⟩
    · refine ⟨iff_of_false not_false h1, fun _ => ?_⟩
      exact ⟨iff_of_true rfl h2, iff_of_false not_false
        (fun hx => absurd h2 (not_lt.mpr hx))⟩
    · refine ⟨iff_of_false not_false h1, fun _ => ?_⟩
      exact ⟨iff_of_false not_false (fun hx => absurd hx h2),
        iff_of_true rfl (not_lt.mp h2)⟩
  · intro lane_width
    rw [apilot_lw, interp3, if_pos le_rfl]
  · intro lane_width
    rw [apilot_lw, interp3]
    norm_num
  · intro lane_width d hd
    rw [apilot_lw, interp3, if_neg (by linarith), if_pos (by linarith)]
    rcases eq_or_lt_of_le hd with he | hgt
    · rw [if_neg (by rw [← he]; exact lt_irrefl _), ← he]
      ring
    · rw [if_pos hgt]

/-- Witness for the amended C8: at `dRel = 10` the interpolated width is
the lane width, the half-width test fails for deviation 2.5 and the Track
is bucketed right; at `dRel = 150` the width is 0.6 lane widths. -/
theorem claim_C8_witness :
    ¬ |(2.5 : ℚ)| < apilot_lw 3.6 10 / 2 ∧
    (apilot_bucket 3.6 10 2.5 = ABucket.right ↔ (0 : ℚ) ≤ 2.5) ∧
    apilot_lw 3.6 10 = 3.6 ∧
    (100 : ℚ) ≤ 150 ∧ apilot_lw 3.6 150 = 3.6 * 0.6 := by
  have hn : ¬ |(2.5 : ℚ)| < apilot_lw 3.6 10 / 2 := by
    with_unfolding_all decide
  exact ⟨hn, ((claim_C8_amended.1 3.6 10 2.5).2 hn).2,
    claim_C8_amended.2.2.1 3.6, by norm_num,
    claim_C8_amended.2.2.2 3.6 150 (by norm_num)⟩

set_option maxRecDepth 8000 in
/-- C9 counterexample: the claim bounds the shared decay-state writes at
one per orchestrator cycle; a cycle with no Tracks and vision candidates
of confidence 0.6 decays the state in each of its three selection calls:
starting from the base value 1.5 it ends at 1.5·0.9³ = 1.0935, which is
neither the reset value 1.5 nor the single-decay value 1.35. -/
theorem claim_C9_counterexample :
    (cycle_leads (fun _ => 0) 0 true []
      (mdStraight [mkLead 30 0 0 0.6, mkLead 40 0 0 0.6]) 3.6 0
      LEAD_ACCEL_TAU).2 = 1.0935 ∧
    (1.0935 : ℚ) ≠ LEAD_ACCEL_TAU ∧
    (1.0935 : ℚ) ≠ LEAD_ACCEL_TAU * 0.9 := by
  refine ⟨?_, ?_, ?_⟩ <;> with_unfolding_all decide

/-- C9 amended (proved): the shared decay state is written at most once
per SELECTION CALL, not per cycle: each `get_lead` call leaves it
unchanged, resets it to the base 1.5 (radar track published) or applies
one decay step `·0.9`, and each `get_lead_side` call leaves it unchanged
or applies one decay step; a full cycle makes three such calls (primary,
secondary, side), so the state can be decayed up to three times. -/
theorem claim_C9_amended (score : Track → ℚ) (v_ego : ℚ) (ready : Bool)
    (tracks : List (ℤ × Track)) (lead_msg : LeadMsg) (md : ModelData)
    (lane_width model_v_ego tau : ℚ) (lso : Bool) :
    ((get_lead score v_ego ready tracks lead_msg model_v_ego tau lso).2 =
        LEAD_ACCEL_TAU ∨
     (get_lead score v_ego ready tracks lead_msg model_v_ego tau lso).2 =
        tau * 0.9 ∨
     (get_lead score v_ego ready tracks lead_msg model_v_ego tau lso).2 =
        tau) ∧
    ((get_lead_side v_ego tracks md lane_width model_v_ego tau).2 =
        tau * 0.9 ∨
     (get_lead_side v_ego tracks md lane_width model_v_ego tau).2 = tau) := by
  constructor
  · have hov : ∀ p : LeadDict × ℚ,
        (apply_low_speed_override v_ego tracks lead_msg p).2 = p.2 := by
      intro p
      simp only [apply_low_speed_override]
      split
      · rfl
      · split_ifs <;> rfl
    have hg : (get_lead score v_ego ready tracks lead_msg model_v_ego tau
        lso).2 =
        (get_lead_core score v_ego ready tracks lead_msg model_v_ego
          tau).2 := by
      cases lso <;> simp [get_lead, hov]
    rw [hg]
    simp only [get_lead_core]
    split
    · left
      rfl
    · split_ifs
      · simp only [get_RadarState_from_vision]
        split_ifs
        · right; left; rfl
        · right; right; rfl
      · right; right; rfl
  · simp only [get_lead_side]
    split_ifs with h1 h2
    · simp only [get_RadarState_from_vision]
      split_ifs
      · left; rfl
      · right; rfl
    · right; rfl
    · right; rfl
